import Mathlib

/-!
Shallow embedding of `backend/app.py`: a FastAPI application with one route
(`GET /api/hello` handled by `read_root`) and a Starlette `CORSMiddleware`
registered with `allow_origins=["http://localhost:3000"]`,
`allow_credentials=True`, `allow_methods=["*"]`, `allow_headers=["*"]`.

The application code itself is declarative configuration; its observable
request/response behaviour is that configuration composed with the framework
(FastAPI on Starlette).  The framework's dispatch is embedded here from its
documented semantics: route matching (a `GET` registration also serves `HEAD`;
an unmatched path yields the default 404 response; a matched path with an
unregistered method yields 405), and Starlette's `CORSMiddleware`
(preflight interception of `OPTIONS` requests carrying `Origin` and
`Access-Control-Request-Method`, and the simple-response header decoration).
-/

/-- ASCII lowercasing of a string (Python `str.lower`, ASGI header
normalisation), written over the character list so it reduces in the
kernel. -/
def lowerString (s : String) : String := String.mk (s.data.map Char.toLower)

/-- Whitespace test used by `trimString` (Python `str.strip`). -/
def isWsChar (c : Char) : Bool := c == ' ' || c == '\t' || c == '\n' || c == '\r'

/-- Strip leading and trailing whitespace (Python `str.strip`). -/
def trimString (s : String) : String :=
  String.mk (((s.data.dropWhile isWsChar).reverse.dropWhile isWsChar).reverse)

/-- Split a string at commas (Python `s.split(",")`). -/
def splitCommaAux : List Char → List Char → List String
  | [], acc => [String.mk acc.reverse]
  | c :: cs, acc =>
      if c == ',' then String.mk acc.reverse :: splitCommaAux cs []
      else splitCommaAux cs (c :: acc)

/-- Split a string at commas (Python `s.split(",")`). -/
def splitComma (s : String) : List String := splitCommaAux s.data []

/-- Codepoint-wise string comparison (Python string ordering on the ASCII
header names it is applied to). -/
def charListLe : List Char → List Char → Bool
  | [], _ => true
  | _ :: _, [] => false
  | a :: as, b :: bs =>
      if a.toNat < b.toNat then true
      else if b.toNat < a.toNat then false
      else charListLe as bs

/-- Codepoint-wise string comparison. -/
def stringLe (a b : String) : Bool := charListLe a.data b.data

/-- A minimal JSON value type: only the constructors the payloads of this
application need (strings and string-keyed objects). -/
inductive Json where
  | str (s : String)
  | obj (fields : List (String × Json))
deriving Repr

/-- A response body: either a JSON document (as produced by FastAPI's
`JSONResponse`) or plain text (as produced by Starlette's
`PlainTextResponse`, used by the CORS preflight path). -/
inductive Body where
  | json (j : Json)
  | text (s : String)
deriving Repr

/-- An HTTP request as the application observes it: method, URL path,
header list, query parameters and raw body.  Header names are
case-insensitive (ASGI semantics), which `headerLookup` accounts for. -/
structure Request where
  method : String
  path : String
  headers : List (String × String)
  query : List (String × String)
  body : String

/-- An HTTP response: status code, header list, media type and body. -/
structure Response where
  status : Nat
  headers : List (String × String)
  mediaType : String
  body : Body

/-- Case-insensitive header lookup, returning the first matching value
(ASGI `Headers.get`). -/
def headerLookup (hs : List (String × String)) (name : String) : Option String :=
  (hs.find? (fun p => lowerString p.1 == lowerString name)).map Prod.snd

/-- Header assignment (Starlette `MutableHeaders.__setitem__`): drop any
existing entries with the same (case-insensitive) name and append the new
entry. -/
def setHeader (hs : List (String × String)) (name value : String) :
    List (String × String) :=
  hs.filter (fun p => !(lowerString p.1 == lowerString name)) ++ [(name, value)]

/-- Starlette `add_vary_header`: extend an existing `Vary` header with a
further value, or create it. -/
def addVaryHeader (hs : List (String × String)) (value : String) :
    List (String × String) :=
  match headerLookup hs "vary" with
  | some existing => setHeader hs "Vary" (existing ++ ", " ++ value)
  | none => setHeader hs "Vary" value

/-- The constructor arguments of `CORSMiddleware` that `app.py` supplies. -/
structure CORSConfig where
  allow_origins : List String
  allow_credentials : Bool
  allow_methods : List String
  allow_headers : List String

/-- Starlette's `ALL_METHODS`: the expansion of the `"*"` wildcard in
`allow_methods`. -/
def ALL_METHODS : List String :=
  ["DELETE", "GET", "HEAD", "OPTIONS", "PATCH", "POST", "PUT"]

/-- Starlette's `SAFELISTED_HEADERS`, always allowed in preflight checks. -/
def SAFELISTED_HEADERS : List String :=
  ["Accept", "Accept-Language", "Content-Language", "Content-Type"]

/-- `"*" in allow_origins`. -/
def allowAllOrigins (c : CORSConfig) : Bool := c.allow_origins.contains "*"

/-- `"*" in allow_headers`. -/
def allowAllHeaders (c : CORSConfig) : Bool := c.allow_headers.contains "*"

/-- The effective method list: the `"*"` wildcard expands to `ALL_METHODS`. -/
def allowMethodsOf (c : CORSConfig) : Option String → Bool
  | some m => (if c.allow_methods.contains "*" then ALL_METHODS
               else c.allow_methods).contains m
  | none => false

/-- Starlette: `preflight_explicit_allow_origin = not allow_all_origins or
allow_credentials`. -/
def preflightExplicitAllowOrigin (c : CORSConfig) : Bool :=
  !(allowAllOrigins c) || c.allow_credentials

/-- Insertion of a string into a sorted list (for Starlette's
`sorted(SAFELISTED_HEADERS | set(allow_headers))`). -/
def insertSorted (s : String) : List String → List String
  | [] => [s]
  | x :: xs => if stringLe s x then s :: x :: xs else x :: insertSorted s xs

/-- Sort a list of strings (insertion sort). -/
def sortStrings (l : List String) : List String := l.foldr insertSorted []

/-- Duplicate removal (Python's `set` construction; the retained order is
irrelevant because the result is sorted afterwards). -/
def dedupKeepFirst : List String → List String
  | [] => []
  | x :: xs => x :: (dedupKeepFirst xs).filter (fun y => !(y == x))

/-- Starlette: `allow_headers = sorted(SAFELISTED_HEADERS | set(allow_headers))`. -/
def corsAllowHeadersSorted (c : CORSConfig) : List String :=
  sortStrings (dedupKeepFirst (SAFELISTED_HEADERS ++ c.allow_headers))

/-- Starlette: `self.allow_headers = [h.lower() for h in allow_headers]`,
the lowercased form used by the preflight membership check. -/
def corsAllowHeadersLower (c : CORSConfig) : List String :=
  (corsAllowHeadersSorted c).map lowerString

/-- Starlette's `simple_headers`, attached to every non-preflight response
that carries an `Origin` header: `Access-Control-Allow-Origin: *` when all
origins are allowed, `Access-Control-Allow-Credentials: true` when
credentials are allowed (`expose_headers` is empty in `app.py`). -/
def simpleHeadersOf (c : CORSConfig) : List (String × String) :=
  (if allowAllOrigins c then [("Access-Control-Allow-Origin", "*")] else [])
  ++ (if c.allow_credentials then [("Access-Control-Allow-Credentials", "true")] else [])

/-- Starlette's `preflight_headers`: the base headers of every preflight
response (`max_age` keeps its default of 600 in `app.py`). -/
def preflightHeadersOf (c : CORSConfig) : List (String × String) :=
  (if preflightExplicitAllowOrigin c then [("Vary", "Origin")]
   else [("Access-Control-Allow-Origin", "*")])
  ++ [("Access-Control-Allow-Methods",
        String.intercalate ", "
          (if c.allow_methods.contains "*" then ALL_METHODS else c.allow_methods)),
      ("Access-Control-Max-Age", "600")]
  ++ (if !(corsAllowHeadersSorted c).isEmpty && !(allowAllHeaders c) then
        [("Access-Control-Allow-Headers",
           String.intercalate ", " (corsAllowHeadersSorted c))]
      else [])
  ++ (if c.allow_credentials then [("Access-Control-Allow-Credentials", "true")] else [])

/-- `is_allowed_origin`: all origins allowed, or listed (`app.py` passes no
`allow_origin_regex`). -/
def isAllowedOrigin (c : CORSConfig) (origin : String) : Bool :=
  allowAllOrigins c || c.allow_origins.contains origin

/-- The base headers of a Starlette preflight response with
`Access-Control-Allow-Origin` echoed for an allowed origin (when an
explicit origin is required). -/
def preflightBaseWithOrigin (c : CORSConfig) (req : Request) :
    List (String × String) :=
  if isAllowedOrigin c ((headerLookup req.headers "origin").getD "") &&
     preflightExplicitAllowOrigin c then
    setHeader (preflightHeadersOf c) "Access-Control-Allow-Origin"
      ((headerLookup req.headers "origin").getD "")
  else preflightHeadersOf c

/-- The headers of a Starlette preflight response: the base
`preflight_headers` with the explicit origin, and
`Access-Control-Allow-Headers` echoing the requested headers when all
headers are allowed. -/
def preflightRespHeaders (c : CORSConfig) (req : Request) : List (String × String) :=
  match headerLookup req.headers "access-control-request-headers" with
  | some rh =>
      if allowAllHeaders c then
        setHeader (preflightBaseWithOrigin c req) "Access-Control-Allow-Headers" rh
      else preflightBaseWithOrigin c req
  | none => preflightBaseWithOrigin c req

/-- The failure list of a Starlette preflight check, in source order:
`"origin"` when the requesting origin is not allowed, `"method"` when the
requested method is not allowed, `"headers"` when some requested header is
not safelisted or configured. -/
def preflightFailures (c : CORSConfig) (req : Request) : List String :=
  (if isAllowedOrigin c ((headerLookup req.headers "origin").getD "")
   then [] else ["origin"])
  ++ (if allowMethodsOf c (headerLookup req.headers "access-control-request-method")
      then [] else ["method"])
  ++ (match headerLookup req.headers "access-control-request-headers" with
      | some rh =>
          if allowAllHeaders c then []
          else if (splitComma rh).all
                 (fun h => (corsAllowHeadersLower c).contains (trimString (lowerString h))) then []
          else ["headers"]
      | none => [])

/-- Starlette `preflight_response`: `200 OK` when every check passes, else
`400 Disallowed CORS ...`; either way a `PlainTextResponse` carrying the
preflight headers. -/
def preflightResponse (c : CORSConfig) (req : Request) : Response :=
  if (preflightFailures c req).isEmpty then
    { status := 200, headers := preflightRespHeaders c req,
      mediaType := "text/plain; charset=utf-8", body := .text "OK" }
  else
    { status := 400, headers := preflightRespHeaders c req,
      mediaType := "text/plain; charset=utf-8",
      body := .text ("Disallowed CORS " ++
        String.intercalate ", " (preflightFailures c req)) }

/-- Starlette `allow_explicit_origin`: set `Access-Control-Allow-Origin` to
the requesting origin and record `Vary: Origin`. -/
def allowExplicitOrigin (hs : List (String × String)) (origin : String) :
    List (String × String) :=
  addVaryHeader (setHeader hs "Access-Control-Allow-Origin" origin) "Origin"

/-- Starlette `simple_response` header decoration: attach `simple_headers`
to the downstream response, and echo the explicit origin when (all origins
are allowed and a cookie is present) or (origins are restricted and this
origin is allowed). -/
def simpleResponseHeaders (c : CORSConfig) (req : Request)
    (respHeaders : List (String × String)) (origin : String) :
    List (String × String) :=
  if allowAllOrigins c && (headerLookup req.headers "cookie").isSome then
    allowExplicitOrigin (respHeaders ++ simpleHeadersOf c) origin
  else if !(allowAllOrigins c) && isAllowedOrigin c origin then
    allowExplicitOrigin (respHeaders ++ simpleHeadersOf c) origin
  else respHeaders ++ simpleHeadersOf c

/-- Starlette `simple_response`: run the wrapped application and decorate
the response headers; status, media type and body pass through unchanged. -/
def simpleResponse (c : CORSConfig) (req : Request) (resp : Response)
    (origin : String) : Response :=
  { resp with headers := simpleResponseHeaders c req resp.headers origin }

/-- Starlette `CORSMiddleware.__call__`: requests without an `Origin` header
pass through untouched; an `OPTIONS` request with `Origin` and
`Access-Control-Request-Method` is answered by the middleware as a CORS
preflight without reaching the router; any other request with an `Origin`
header gets the simple-response header decoration. -/
def corsMiddleware (c : CORSConfig) (app : Request → Response)
    (req : Request) : Response :=
  match headerLookup req.headers "origin" with
  | none => app req
  | some origin =>
      if req.method == "OPTIONS" &&
         (headerLookup req.headers "access-control-request-method").isSome then
        preflightResponse c req
      else
        simpleResponse c req (app req) origin

/-- Whether a request is a CORS preflight: `OPTIONS` with both an `Origin`
and an `Access-Control-Request-Method` header. -/
def isPreflight (req : Request) : Bool :=
  (headerLookup req.headers "origin").isSome &&
  (req.method == "OPTIONS" &&
    (headerLookup req.headers "access-control-request-method").isSome)

/-- A registered route: path, allowed methods, and handler.  The handler is
`Except`-valued to reflect that a Python handler may raise; a raising
handler would surface as the framework's 500 response. -/
structure Route where
  path : String
  methods : List String
  handler : Except String Response

/-- The body of `read_root` in `app.py`:
`return {"message": "Hello from Python!"}`.  It evaluates no partial
operation, so it never raises. -/
def read_root : Except String Json :=
  .ok (.obj [("message", .str "Hello from Python!")])

/-- A 200 JSON response (FastAPI's `JSONResponse` wrapping of a handler's
return value). -/
def jsonResponse (j : Json) : Response :=
  { status := 200, headers := [], mediaType := "application/json",
    body := .json j }

/-- A 200 HTML response (Starlette's `HTMLResponse`, used by the
documentation pages). -/
def htmlResponse (s : String) : Response :=
  { status := 200, headers := [], mediaType := "text/html; charset=utf-8",
    body := .text s }

/-- The OpenAPI schema document FastAPI serves at `/openapi.json`: a JSON
object generated from the app's metadata and routes (default title
"FastAPI", version "0.1.0").  Its full contents — the `paths` entry for
`/api/hello` and so on — are abbreviated here: no claim inspects this body,
only the fact that the route answers 200 with JSON. -/
def openapiSchemaJson : Json :=
  .obj [("openapi", .str "3.1.0"),
        ("info", .obj [("title", .str "FastAPI"), ("version", .str "0.1.0")])]

/-- The Swagger UI page served at `/docs` (`get_swagger_ui_html`).  The
markup is abbreviated: no claim inspects it, only the 200 HTML response. -/
def swaggerUiHtml : String := "<!DOCTYPE html>"

/-- The OAuth2 redirect page served at `/docs/oauth2-redirect`
(`get_swagger_ui_oauth2_redirect_html`), markup abbreviated as above. -/
def oauth2RedirectHtml : String := "<!DOCTYPE html>"

/-- The ReDoc page served at `/redoc` (`get_redoc_html`), markup
abbreviated as above. -/
def redocHtml : String := "<!DOCTYPE html>"

/-- The `/openapi.json` route that `FastAPI()` registers by default
(`openapi_url="/openapi.json"`); a plain `GET` registration, so `HEAD` is
added by Starlette. -/
def openapiRoute : Route :=
  { path := "/openapi.json", methods := ["GET", "HEAD"],
    handler := .ok (jsonResponse openapiSchemaJson) }

/-- The `/docs` route that `FastAPI()` registers by default
(`docs_url="/docs"`). -/
def swaggerRoute : Route :=
  { path := "/docs", methods := ["GET", "HEAD"],
    handler := .ok (htmlResponse swaggerUiHtml) }

/-- The `/docs/oauth2-redirect` route that `FastAPI()` registers by default
(`swagger_ui_oauth2_redirect_url="/docs/oauth2-redirect"`). -/
def swaggerOauthRoute : Route :=
  { path := "/docs/oauth2-redirect", methods := ["GET", "HEAD"],
    handler := .ok (htmlResponse oauth2RedirectHtml) }

/-- The `/redoc` route that `FastAPI()` registers by default
(`redoc_url="/redoc"`). -/
def redocRoute : Route :=
  { path := "/redoc", methods := ["GET", "HEAD"],
    handler := .ok (htmlResponse redocHtml) }

/-- The route from `@app.get("/api/hello")`: `read_root`'s return value
serialized as a JSON response.  Starlette adds `HEAD` to the method set of
any route registered with `GET`. -/
def helloRoute : Route :=
  { path := "/api/hello", methods := ["GET", "HEAD"],
    handler := Except.map jsonResponse read_root }

/-- The route table of `app = FastAPI()` after the single registration in
`app.py`: the four documentation routes `FastAPI()` installs by default
(in its `setup()` order), then the user's `/api/hello` route. -/
def appRoutes : List Route :=
  [openapiRoute, swaggerRoute, swaggerOauthRoute, redocRoute, helloRoute]

/-- The paths with a registered route. -/
def registeredPaths : List String := appRoutes.map Route.path

/-- FastAPI's default error body shape: `{"detail": <message>}`. -/
def jsonDetail (msg : String) : Body := .json (.obj [("detail", .str msg)])

/-- The framework default not-found response (FastAPI's handler for the
`HTTPException(404)` Starlette's router raises on an unmatched path). -/
def notFoundResponse : Response :=
  { status := 404, headers := [], mediaType := "application/json",
    body := jsonDetail "Not Found" }

/-- The framework default method-not-allowed response for a matched path,
carrying the `Allow` header of registered methods. -/
def methodNotAllowedResponse (allowed : List String) : Response :=
  { status := 405, headers := [("Allow", String.intercalate ", " allowed)],
    mediaType := "application/json", body := jsonDetail "Method Not Allowed" }

/-- Running a fully matched route: the handler's response, or the
framework's 500 response if the handler raises. -/
def runRoute (rt : Route) : Response :=
  match rt.handler with
  | .ok r => r
  | .error _ => { status := 500, headers := [],
                  mediaType := "text/plain; charset=utf-8",
                  body := .text "Internal Server Error" }

/-- First route matching both path and method. -/
def findFull (routes : List Route) (req : Request) : Option Route :=
  routes.find? (fun rt => rt.path == req.path && rt.methods.contains req.method)

/-- First route matching the path regardless of method (Starlette's partial
match, which yields 405). -/
def findByPath (routes : List Route) (req : Request) : Option Route :=
  routes.find? (fun rt => rt.path == req.path)

/-- Python `path.rstrip("/")`: drop every trailing slash. -/
def stripTrailingSlashes (p : String) : String :=
  String.mk (p.data.reverse.dropWhile (fun c => c == '/')).reverse

/-- The slash-toggled variant of a path that Starlette's `redirect_slashes`
logic probes: strip the trailing slashes if there is one, append one
otherwise. -/
def alternativePath (p : String) : String :=
  if p.data.getLast? = some '/' then stripTrailingSlashes p else p ++ "/"

/-- Starlette's `RedirectResponse` (default status 307).  The real
`location` header carries the absolute URL built from the request scope,
including host and query string; only the path is modelled (the request
model has no host), and no claim inspects the value. -/
def redirectResponse (url : String) : Response :=
  { status := 307, headers := [("location", url)], mediaType := "",
    body := .text "" }

/-- Starlette router dispatch: a full match runs the route; a path-only
match yields 405; otherwise, with `redirect_slashes` on (the default) and a
non-root path whose slash-toggled variant matches some route, a 307
redirect; otherwise the default 404. -/
def routerHandle (routes : List Route) (req : Request) : Response :=
  match findFull routes req with
  | some rt => runRoute rt
  | none =>
      match findByPath routes req with
      | some rt => methodNotAllowedResponse rt.methods
      | none =>
          if (req.path != "/") &&
             routes.any (fun rt => rt.path == alternativePath req.path) then
            redirectResponse (alternativePath req.path)
          else notFoundResponse

/-- The `CORSMiddleware` arguments from `app.add_middleware(...)` in
`app.py`. -/
def corsConfig : CORSConfig :=
  { allow_origins := ["http://localhost:3000"],
    allow_credentials := true,
    allow_methods := ["*"],
    allow_headers := ["*"] }

/-- The whole application: the CORS middleware wrapped around the router. -/
def appHandle (req : Request) : Response :=
  corsMiddleware corsConfig (routerHandle appRoutes) req

/-- The server's state: its route table and middleware configuration, fixed
at startup by `app.py` and never mutated afterwards. -/
structure ServerState where
  routes : List Route
  cors : CORSConfig

/-- The state established at process start by `app.py`. -/
def initialState : ServerState :=
  { routes := appRoutes, cors := corsConfig }

/-- Handling one request as a state transformer: the handler produces a
response and leaves the server state as it found it. -/
def handleRequestSt (s : ServerState) (req : Request) :
    ServerState × Response :=
  (s, corsMiddleware s.cors (routerHandle s.routes) req)

/-- The greeting payload returned by `read_root`. -/
def helloJson : Json := .obj [("message", .str "Hello from Python!")]

/-! ### Lemmas about header lists -/

/-- `find?` for a name finds nothing among entries filtered out for bearing
that very name. -/
theorem find?_filter_same_none (l : List (String × String)) (n : String) :
    (l.filter (fun p => !(lowerString p.1 == lowerString n))).find?
      (fun p => lowerString p.1 == lowerString n) = none := by
  induction l with
  | nil => rfl
  | cons a t ih =>
      by_cases h : (lowerString a.1 == lowerString n) = true
      · simp [List.filter_cons, h, ih]
      · simp only [Bool.not_eq_true] at h
        simp [List.filter_cons, h, List.find?_cons, ih]

/-- Filtering out entries of one name does not change the `find?` of a
different name. -/
theorem find?_filter_other (hs : List (String × String)) (n m : String)
    (h : lowerString m ≠ lowerString n) :
    (hs.filter (fun p => !(lowerString p.1 == lowerString n))).find?
      (fun p => lowerString p.1 == lowerString m)
    = hs.find? (fun p => lowerString p.1 == lowerString m) := by
  induction hs with
  | nil => rfl
  | cons a t ih =>
      by_cases hn : (lowerString a.1 == lowerString n) = true
      · have hae : lowerString a.1 = lowerString n := eq_of_beq hn
        have hm : (lowerString a.1 == lowerString m) = false := by
          rw [hae]
          exact beq_eq_false_iff_ne.mpr fun e => h e.symm
        simpa [List.filter_cons, hn, List.find?_cons, hm] using ih
      · simp only [Bool.not_eq_true] at hn
        by_cases hm : (lowerString a.1 == lowerString m) = true
        · simp [List.filter_cons, hn, List.find?_cons, hm]
        · simp only [Bool.not_eq_true] at hm
          simpa [List.filter_cons, hn, List.find?_cons, hm] using ih

/-- Looking up a name equal (case-insensitively) to the one just set yields
the new value. -/
theorem headerLookup_setHeader_same (hs : List (String × String)) (n v m : String)
    (h : lowerString m = lowerString n) :
    headerLookup (setHeader hs n v) m = some v := by
  unfold headerLookup setHeader
  rw [h, List.find?_append, find?_filter_same_none]
  simp [List.find?]

/-- Setting one header leaves lookups of other names unchanged. -/
theorem headerLookup_setHeader_other (hs : List (String × String)) (n v m : String)
    (h : lowerString m ≠ lowerString n) :
    headerLookup (setHeader hs n v) m = headerLookup hs m := by
  unfold headerLookup setHeader
  rw [List.find?_append, find?_filter_other hs n m h]
  have hb : (lowerString n == lowerString m) = false :=
    beq_eq_false_iff_ne.mpr fun e => h e.symm
  simp [List.find?, hb]

/-- If the first list lacks a name, lookup in the concatenation falls
through to the second list. -/
theorem headerLookup_append_none (h1 h2 : List (String × String)) (n : String)
    (h : headerLookup h1 n = none) :
    headerLookup (h1 ++ h2) n = headerLookup h2 n := by
  unfold headerLookup at *
  rw [List.find?_append]
  cases hf : h1.find? (fun p => lowerString p.1 == lowerString n) with
  | none => simp
  | some x => rw [hf] at h; simp at h

/-- `addVaryHeader` leaves lookups of names other than `Vary` unchanged. -/
theorem headerLookup_addVary_other (hs : List (String × String)) (v m : String)
    (h : lowerString m ≠ lowerString "Vary") :
    headerLookup (addVaryHeader hs v) m = headerLookup hs m := by
  unfold addVaryHeader
  cases headerLookup hs "vary" with
  | some e => exact headerLookup_setHeader_other hs "Vary" _ m h
  | none => exact headerLookup_setHeader_other hs "Vary" _ m h

/-! ### Lemmas about the router and the middleware branches -/

/-- A route found in the table is one of the five registered routes. -/
theorem mem_appRoutes_cases {rt : Route} (h : rt ∈ appRoutes) :
    rt = openapiRoute ∨ rt = swaggerRoute ∨ rt = swaggerOauthRoute ∨
    rt = redocRoute ∨ rt = helloRoute := by
  simpa [appRoutes] using h

/-- Lookup of a name in a single-entry header list bearing a different
name. -/
theorem headerLookup_single_other (n v m : String)
    (h : lowerString m ≠ lowerString n) :
    headerLookup [(n, v)] m = none := by
  have hb : (lowerString n == lowerString m) = false :=
    beq_eq_false_iff_ne.mpr fun e => h e.symm
  simp [headerLookup, List.find?, hb]

/-- No registered handler raises, and none sets CORS headers: running any
registered route yields a non-500 response without
`Access-Control-Allow-Credentials`. -/
theorem runRoute_registered {rt : Route} (h : rt ∈ appRoutes) :
    (runRoute rt).status ≠ 500 ∧
    headerLookup (runRoute rt).headers "access-control-allow-credentials" = none := by
  rcases mem_appRoutes_cases h with h1 | h1 | h1 | h1 | h1 <;>
    rw [h1] <;> exact ⟨by decide, by decide⟩

/-- The router only answers 200, 405, 307 or 404 — never 500 — and never
sets `Access-Control-Allow-Credentials` itself. -/
theorem routerHandle_plain (req : Request) :
    (routerHandle appRoutes req).status ≠ 500 ∧
    headerLookup (routerHandle appRoutes req).headers
      "access-control-allow-credentials" = none := by
  unfold routerHandle
  cases hf : findFull appRoutes req with
  | some rt =>
      dsimp only
      refine runRoute_registered ?_
      unfold findFull at hf
      exact List.mem_of_find?_eq_some hf
  | none =>
      dsimp only
      cases hp : findByPath appRoutes req with
      | some rt =>
          dsimp only
          constructor
          · show (405 : Nat) ≠ 500
            decide
          · exact headerLookup_single_other "Allow" _ _ (by decide)
      | none =>
          dsimp only
          split
          · constructor
            · show (307 : Nat) ≠ 500
              decide
            · exact headerLookup_single_other "location" _ _ (by decide)
          · exact ⟨by decide, by decide⟩

/-- The router never produces a 500 response: no registered handler
raises. -/
theorem routerHandle_status_ne_500 (req : Request) :
    (routerHandle appRoutes req).status ≠ 500 :=
  (routerHandle_plain req).1

/-- A `GET` request for `/api/hello` fully matches the registered route, so
the router returns the 200 greeting. -/
theorem routerHandle_hello_get (req : Request) (hm : req.method = "GET")
    (hp : req.path = "/api/hello") :
    routerHandle appRoutes req =
      { status := 200, headers := [], mediaType := "application/json",
        body := .json helloJson } := by
  unfold routerHandle findFull appRoutes
  rw [hm, hp]
  rfl

/-- The preflight response carries `preflightRespHeaders` whether or not the
checks pass. -/
theorem preflightResponse_headers (c : CORSConfig) (req : Request) :
    (preflightResponse c req).headers = preflightRespHeaders c req := by
  unfold preflightResponse
  split <;> rfl

/-- The preflight response status is 200 or 400. -/
theorem preflightResponse_status (c : CORSConfig) (req : Request) :
    (preflightResponse c req).status = 200 ∨ (preflightResponse c req).status = 400 := by
  unfold preflightResponse
  split
  · left; rfl
  · right; rfl

/-- `simpleResponse` only decorates headers: status, media type and body
pass through. -/
theorem simpleResponse_preserves (c : CORSConfig) (req : Request)
    (resp : Response) (origin : String) :
    (simpleResponse c req resp origin).status = resp.status ∧
    (simpleResponse c req resp origin).mediaType = resp.mediaType ∧
    (simpleResponse c req resp origin).body = resp.body :=
  ⟨rfl, rfl, rfl⟩

/-- Whatever else a `GET /api/hello` request carries, the full application
answers 200 with the JSON greeting (the middleware may only add headers). -/
theorem appHandle_hello_get (req : Request) (hm : req.method = "GET")
    (hp : req.path = "/api/hello") :
    (appHandle req).status = 200 ∧
    (appHandle req).mediaType = "application/json" ∧
    (appHandle req).body = .json helloJson := by
  unfold appHandle corsMiddleware
  cases ho : headerLookup req.headers "origin" with
  | none =>
      rw [routerHandle_hello_get req hm hp]
      exact ⟨rfl, rfl, rfl⟩
  | some o =>
      have hc : (req.method == "OPTIONS" &&
          (headerLookup req.headers "access-control-request-method").isSome) = false := by
        rw [hm]
        rfl
      rw [hc]
      simp only [Bool.false_eq_true, if_false]
      rw [routerHandle_hello_get req hm hp]
      exact ⟨rfl, rfl, rfl⟩

/-! ### CORS header lookups for the configured origin -/

/-- With the configured origin requesting, the preflight base headers are the
static headers plus the echoed origin. -/
theorem preflightBase_localhost (req : Request)
    (ho : headerLookup req.headers "origin" = some "http://localhost:3000") :
    preflightBaseWithOrigin corsConfig req =
      setHeader (preflightHeadersOf corsConfig) "Access-Control-Allow-Origin"
        "http://localhost:3000" := by
  unfold preflightBaseWithOrigin
  rw [ho]
  rw [if_pos (by decide)]
  rfl

/-- A preflight response to the configured origin carries the echoed
`Access-Control-Allow-Origin` and `Access-Control-Allow-Credentials`. -/
theorem preflight_localhost_lookups (req : Request)
    (ho : headerLookup req.headers "origin" = some "http://localhost:3000") :
    headerLookup (preflightRespHeaders corsConfig req) "access-control-allow-origin"
      = some "http://localhost:3000" ∧
    headerLookup (preflightRespHeaders corsConfig req) "access-control-allow-credentials"
      = some "true" := by
  unfold preflightRespHeaders
  cases hrh : headerLookup req.headers "access-control-request-headers" with
  | none =>
      dsimp only
      rw [preflightBase_localhost req ho]
      constructor
      · exact headerLookup_setHeader_same _ _ _ _ (by decide)
      · rw [headerLookup_setHeader_other _ _ _ _ (by decide)]
        decide
  | some rh =>
      dsimp only
      rw [if_pos (by decide : allowAllHeaders corsConfig = true)]
      rw [preflightBase_localhost req ho]
      constructor
      · rw [headerLookup_setHeader_other _ _ _ _ (by decide)]
        exact headerLookup_setHeader_same _ _ _ _ (by decide)
      · rw [headerLookup_setHeader_other _ _ _ _ (by decide),
            headerLookup_setHeader_other _ _ _ _ (by decide)]
        decide

/-- A simple (non-preflight) response to the configured origin carries the
echoed `Access-Control-Allow-Origin` and `Access-Control-Allow-Credentials`,
whatever the downstream headers were (as long as they do not already hold a
credentials header). -/
theorem simpleHeaders_localhost (req : Request) (rh : List (String × String))
    (hnone : headerLookup rh "access-control-allow-credentials" = none) :
    headerLookup (simpleResponseHeaders corsConfig req rh "http://localhost:3000")
      "access-control-allow-origin" = some "http://localhost:3000" ∧
    headerLookup (simpleResponseHeaders corsConfig req rh "http://localhost:3000")
      "access-control-allow-credentials" = some "true" := by
  unfold simpleResponseHeaders
  have hc1 : (allowAllOrigins corsConfig &&
      (headerLookup req.headers "cookie").isSome) = false := rfl
  rw [hc1]
  simp only [Bool.false_eq_true, if_false]
  rw [if_pos (by decide : (!(allowAllOrigins corsConfig) &&
      isAllowedOrigin corsConfig "http://localhost:3000") = true)]
  unfold allowExplicitOrigin
  constructor
  · rw [headerLookup_addVary_other _ _ _ (by decide)]
    exact headerLookup_setHeader_same _ _ _ _ (by decide)
  · rw [headerLookup_addVary_other _ _ _ (by decide),
        headerLookup_setHeader_other _ _ _ _ (by decide),
        headerLookup_append_none _ _ _ hnone]
    decide

/-- If a list of strings does not contain `a`, every member compares
`beq`-false against it. -/
theorem contains_eq_false_forall {l : List String} {a : String}
    (h : l.contains a = false) : ∀ x ∈ l, (x == a) = false := by
  intro x hx
  cases hb : (x == a) with
  | false => rfl
  | true =>
      have hxa : x = a := eq_of_beq hb
      rw [hxa] at hx
      have hc : l.contains a = true := by simp [hx]
      rw [hc] at h
      simp at h

/-- A request for an unregistered path whose slash-toggled variant is also
unregistered falls through to the framework's default not-found
response. -/
theorem routerHandle_not_found (req : Request)
    (hp : registeredPaths.contains req.path = false)
    (ha : registeredPaths.contains (alternativePath req.path) = false) :
    routerHandle appRoutes req = notFoundResponse := by
  have hall := contains_eq_false_forall hp
  have h1 : ("/openapi.json" == req.path) = false := hall _ (by decide)
  have h2 : ("/docs" == req.path) = false := hall _ (by decide)
  have h3 : ("/docs/oauth2-redirect" == req.path) = false := hall _ (by decide)
  have h4 : ("/redoc" == req.path) = false := hall _ (by decide)
  have h5 : ("/api/hello" == req.path) = false := hall _ (by decide)
  have hallA := contains_eq_false_forall ha
  have a1 : ("/openapi.json" == alternativePath req.path) = false := hallA _ (by decide)
  have a2 : ("/docs" == alternativePath req.path) = false := hallA _ (by decide)
  have a3 : ("/docs/oauth2-redirect" == alternativePath req.path) = false :=
    hallA _ (by decide)
  have a4 : ("/redoc" == alternativePath req.path) = false := hallA _ (by decide)
  have a5 : ("/api/hello" == alternativePath req.path) = false := hallA _ (by decide)
  unfold routerHandle findFull findByPath appRoutes
  simp [List.find?, List.any, openapiRoute, swaggerRoute, swaggerOauthRoute,
        redocRoute, helloRoute, h1, h2, h3, h4, h5, a1, a2, a3, a4, a5]

/-- On `/api/hello`, a method other than `GET` and `HEAD` yields the
framework's method-not-allowed response. -/
theorem routerHandle_method_not_allowed (req : Request)
    (hp : req.path = "/api/hello")
    (h1 : req.method ≠ "GET") (h2 : req.method ≠ "HEAD") :
    routerHandle appRoutes req = methodNotAllowedResponse ["GET", "HEAD"] := by
  have hb1 : (req.method == "GET") = false := beq_eq_false_iff_ne.mpr h1
  have hb2 : (req.method == "HEAD") = false := beq_eq_false_iff_ne.mpr h2
  have c1 : ("/openapi.json" == "/api/hello") = false := by decide
  have c2 : ("/docs" == "/api/hello") = false := by decide
  have c3 : ("/docs/oauth2-redirect" == "/api/hello") = false := by decide
  have c4 : ("/redoc" == "/api/hello") = false := by decide
  unfold routerHandle findFull findByPath appRoutes
  rw [hp]
  simp [List.find?, List.contains, List.elem, openapiRoute, swaggerRoute,
        swaggerOauthRoute, redocRoute, helloRoute, hb1, hb2, c1, c2, c3, c4]

/-- On the configuration of `app.py`, an origin is allowed exactly when it
is the single configured origin. -/
theorem isAllowedOrigin_corsConfig (o : String) :
    isAllowedOrigin corsConfig o = (o == "http://localhost:3000") := by
  unfold isAllowedOrigin allowAllOrigins corsConfig
  simp [List.contains, List.elem]
  cases o == "http://localhost:3000" <;> rfl

/-- The preflight checks all pass when the origin is the configured one and
the requested method is a standard method (the wildcard configuration allows
every requested header). -/
theorem preflightFailures_empty (req : Request) (M : String)
    (ho : headerLookup req.headers "origin" = some "http://localhost:3000")
    (hacrm : headerLookup req.headers "access-control-request-method" = some M)
    (hM : ALL_METHODS.contains M = true) :
    preflightFailures corsConfig req = [] := by
  unfold preflightFailures
  rw [ho, hacrm]
  rw [if_pos (by decide :
    isAllowedOrigin corsConfig ((some "http://localhost:3000").getD "") = true)]
  have hmok : allowMethodsOf corsConfig (some M) = true := by
    show (if corsConfig.allow_methods.contains "*" then ALL_METHODS
          else corsConfig.allow_methods).contains M = true
    rw [if_pos (by decide)]
    exact hM
  rw [if_pos hmok]
  cases hrh : headerLookup req.headers "access-control-request-headers" with
  | none => rfl
  | some rh =>
      dsimp only
      rw [if_pos (by decide : allowAllHeaders corsConfig = true)]
      rfl

/-! ### Concrete requests used by witnesses and counterexamples -/

/-- A plain `GET /api/hello` request. -/
def plainHelloReq : Request :=
  { method := "GET", path := "/api/hello", headers := [], query := [], body := "" }

/-- `GET /api/hello` from the configured origin. -/
def localhostOriginReq : Request :=
  { method := "GET", path := "/api/hello",
    headers := [("Origin", "http://localhost:3000")], query := [], body := "" }

/-- `GET /api/hello` from a foreign origin. -/
def evilOriginReq : Request :=
  { method := "GET", path := "/api/hello",
    headers := [("Origin", "http://evil.example")], query := [], body := "" }

/-- `GET` of an unregistered path. -/
def otherPathReq : Request :=
  { method := "GET", path := "/api/unknown", headers := [], query := [], body := "" }

/-- `HEAD /api/hello`. -/
def headHelloReq : Request :=
  { method := "HEAD", path := "/api/hello", headers := [], query := [], body := "" }

/-- `POST /api/hello`. -/
def postHelloReq : Request :=
  { method := "POST", path := "/api/hello", headers := [], query := [], body := "" }

/-- `GET /api/hello` with extra query parameters, headers and body. -/
def queryHelloReq : Request :=
  { method := "GET", path := "/api/hello", headers := [("X-Extra", "1")],
    query := [("debug", "true")], body := "ignored" }

/-- A well-formed CORS preflight for `POST /api/hello` from the configured
origin. -/
def goodPreflightReq : Request :=
  { method := "OPTIONS", path := "/api/hello",
    headers := [("Origin", "http://localhost:3000"),
                ("Access-Control-Request-Method", "POST"),
                ("Access-Control-Request-Headers", "X-Custom-Header")],
    query := [], body := "" }

/-- A CORS preflight whose requested method is not a standard method. -/
def badMethodPreflightReq : Request :=
  { method := "OPTIONS", path := "/api/hello",
    headers := [("Origin", "http://localhost:3000"),
                ("Access-Control-Request-Method", "FROBNICATE")],
    query := [], body := "" }

/-- A CORS preflight addressed to an unregistered path. -/
def preflightOtherPathReq : Request :=
  { method := "OPTIONS", path := "/api/unknown",
    headers := [("Origin", "http://localhost:3000"),
                ("Access-Control-Request-Method", "GET")],
    query := [], body := "" }

/-- `GET /docs`, one of the documentation routes `FastAPI()` registers by
default. -/
def docsReq : Request :=
  { method := "GET", path := "/docs", headers := [], query := [], body := "" }

/-- `GET /api/hello/` — the registered path with a trailing slash. -/
def slashHelloReq : Request :=
  { method := "GET", path := "/api/hello/", headers := [], query := [],
    body := "" }

/-! ### The claims -/

/-- Claim C1: every `GET /api/hello` request is answered with HTTP 200,
content type JSON, and a body equal exactly to the object with the single
key `message` bound to the string "Hello from Python!". -/
theorem hello_endpoint_returns_greeting (req : Request)
    (hm : req.method = "GET") (hp : req.path = "/api/hello") :
    (appHandle req).status = 200 ∧
    (appHandle req).mediaType = "application/json" ∧
    (appHandle req).body = .json (.obj [("message", .str "Hello from Python!")]) :=
  appHandle_hello_get req hm hp

/-- Witness for C1: the plain `GET /api/hello` request. -/
theorem hello_endpoint_returns_greeting_witness :
    (appHandle plainHelloReq).status = 200 ∧
    (appHandle plainHelloReq).mediaType = "application/json" ∧
    (appHandle plainHelloReq).body = .json (.obj [("message", .str "Hello from Python!")]) :=
  hello_endpoint_returns_greeting plainHelloReq rfl rfl

/-- Claim C2: every response to a request carrying the Origin header
`http://localhost:3000` — whatever its route or method — includes
`Access-Control-Allow-Origin: http://localhost:3000` and
`Access-Control-Allow-Credentials: true`. -/
theorem allowed_origin_gets_cors_headers (req : Request)
    (ho : headerLookup req.headers "origin" = some "http://localhost:3000") :
    headerLookup (appHandle req).headers "access-control-allow-origin"
      = some "http://localhost:3000" ∧
    headerLookup (appHandle req).headers "access-control-allow-credentials"
      = some "true" := by
  unfold appHandle corsMiddleware
  rw [ho]
  dsimp only
  by_cases hpf : (req.method == "OPTIONS" &&
      (headerLookup req.headers "access-control-request-method").isSome) = true
  · rw [if_pos hpf, preflightResponse_headers]
    exact preflight_localhost_lookups req ho
  · rw [if_neg hpf]
    have hnone : headerLookup (routerHandle appRoutes req).headers
        "access-control-allow-credentials" = none := (routerHandle_plain req).2
    exact simpleHeaders_localhost req _ hnone

/-- Witness for C2: `GET /api/hello` from the configured origin. -/
theorem allowed_origin_gets_cors_headers_witness :
    headerLookup (appHandle localhostOriginReq).headers "access-control-allow-origin"
      = some "http://localhost:3000" ∧
    headerLookup (appHandle localhostOriginReq).headers "access-control-allow-credentials"
      = some "true" :=
  allowed_origin_gets_cors_headers localhostOriginReq (by decide)

/-- Counterexamples to C3 as stated — three non-`/api/hello` requests the
server does not answer 404: a CORS preflight for an unregistered path
(answered 200 by the middleware before routing), `GET /docs` (a
documentation route `FastAPI()` registers by default, answered 200), and
`GET /api/hello/` (answered with a 307 slash redirect). -/
theorem non_hello_paths_not_all_404 :
    (preflightOtherPathReq.path ≠ "/api/hello" ∧
      (appHandle preflightOtherPathReq).status = 200) ∧
    (docsReq.path ≠ "/api/hello" ∧ (appHandle docsReq).status = 200) ∧
    (slashHelloReq.path ≠ "/api/hello" ∧
      (appHandle slashHelloReq).status = 307) :=
  ⟨⟨by decide, by decide⟩, ⟨by decide, by decide⟩, ⟨by decide, by decide⟩⟩

/-- Claim C3 (amended): every request that is not a CORS preflight, whose
path has no registered route — neither `/api/hello` nor the documentation
paths `FastAPI()` registers by default (`/openapi.json`, `/docs`,
`/docs/oauth2-redirect`, `/redoc`) — and whose slash-toggled variant has no
registered route either (else `redirect_slashes` answers 307), receives the
framework's default not-found response (HTTP 404); no custom not-found
handling is installed. -/
theorem unknown_path_not_found (req : Request)
    (hnp : isPreflight req = false)
    (hp : registeredPaths.contains req.path = false)
    (ha : registeredPaths.contains (alternativePath req.path) = false) :
    (appHandle req).status = 404 ∧
    (appHandle req).body = jsonDetail "Not Found" := by
  unfold appHandle corsMiddleware
  cases ho : headerLookup req.headers "origin" with
  | none =>
      rw [routerHandle_not_found req hp ha]
      exact ⟨rfl, rfl⟩
  | some o =>
      have hcond : (req.method == "OPTIONS" &&
          (headerLookup req.headers "access-control-request-method").isSome) = false := by
        unfold isPreflight at hnp
        rw [ho, Option.isSome_some, Bool.true_and] at hnp
        exact hnp
      rw [hcond]
      simp only [Bool.false_eq_true, if_false]
      rw [routerHandle_not_found req hp ha]
      exact ⟨rfl, rfl⟩

/-- Witness for amended C3: `GET /api/unknown`. -/
theorem unknown_path_not_found_witness :
    isPreflight otherPathReq = false ∧
    registeredPaths.contains otherPathReq.path = false ∧
    registeredPaths.contains (alternativePath otherPathReq.path) = false ∧
    (appHandle otherPathReq).status = 404 ∧
    (appHandle otherPathReq).body = jsonDetail "Not Found" :=
  ⟨by decide, by decide, by decide,
    unknown_path_not_found otherPathReq (by decide) (by decide) (by decide)⟩

/-- Claim C4: a `GET /api/hello` from any origin other than the configured
one is still answered 200 with the same greeting body — the server does not
reject it — and the response carries no `Access-Control-Allow-Origin`
header at all (in particular none matching that origin). -/
theorem foreign_origin_not_reflected (req : Request) (o : String)
    (hm : req.method = "GET") (hp : req.path = "/api/hello")
    (ho : headerLookup req.headers "origin" = some o)
    (hno : o ≠ "http://localhost:3000") :
    (appHandle req).status = 200 ∧
    (appHandle req).body = .json (.obj [("message", .str "Hello from Python!")]) ∧
    headerLookup (appHandle req).headers "access-control-allow-origin" = none := by
  unfold appHandle corsMiddleware
  rw [ho]
  dsimp only
  have hcond : (req.method == "OPTIONS" &&
      (headerLookup req.headers "access-control-request-method").isSome) = false := by
    rw [hm]; rfl
  rw [hcond]
  simp only [Bool.false_eq_true, if_false]
  rw [routerHandle_hello_get req hm hp]
  refine ⟨rfl, rfl, ?_⟩
  show headerLookup (simpleResponseHeaders corsConfig req [] o)
      "access-control-allow-origin" = none
  unfold simpleResponseHeaders
  have hc1 : (allowAllOrigins corsConfig &&
      (headerLookup req.headers "cookie").isSome) = false := rfl
  rw [hc1]
  simp only [Bool.false_eq_true, if_false]
  have hc2 : (!(allowAllOrigins corsConfig) && isAllowedOrigin corsConfig o) = false := by
    rw [isAllowedOrigin_corsConfig o, beq_eq_false_iff_ne.mpr hno]
    rfl
  rw [hc2]
  simp only [Bool.false_eq_true, if_false]
  decide

/-- Witness for C4: `GET /api/hello` from `http://evil.example`. -/
theorem foreign_origin_not_reflected_witness :
    (appHandle evilOriginReq).status = 200 ∧
    (appHandle evilOriginReq).body = .json (.obj [("message", .str "Hello from Python!")]) ∧
    headerLookup (appHandle evilOriginReq).headers "access-control-allow-origin" = none :=
  foreign_origin_not_reflected evilOriginReq "http://evil.example"
    rfl rfl (by decide) (by decide)

/-- Claim C5: any two `GET /api/hello` requests — however they differ in
query parameters, headers or body — receive the same status (200) and the
same body. -/
theorem hello_response_input_independent (r1 r2 : Request)
    (hm1 : r1.method = "GET") (hp1 : r1.path = "/api/hello")
    (hm2 : r2.method = "GET") (hp2 : r2.path = "/api/hello") :
    (appHandle r1).status = 200 ∧
    (appHandle r1).status = (appHandle r2).status ∧
    (appHandle r1).body = (appHandle r2).body := by
  obtain ⟨s1, m1, b1⟩ := appHandle_hello_get r1 hm1 hp1
  obtain ⟨s2, m2, b2⟩ := appHandle_hello_get r2 hm2 hp2
  refine ⟨s1, ?_, ?_⟩
  · rw [s1, s2]
  · rw [b1, b2]

/-- Witness for C5: a bare request and one with extra query parameters,
headers and body. -/
theorem hello_response_input_independent_witness :
    (appHandle plainHelloReq).status = 200 ∧
    (appHandle plainHelloReq).status = (appHandle queryHelloReq).status ∧
    (appHandle plainHelloReq).body = (appHandle queryHelloReq).body :=
  hello_response_input_independent plainHelloReq queryHelloReq rfl rfl rfl rfl

/-- Claim C6: the registered cross-origin policy allows exactly the origin
`http://localhost:3000`, permits credentials, uses the wildcard for methods
(which expands to every standard method) and for headers, and is the layer
through which every request to the application passes. -/
theorem cors_policy_configuration :
    corsConfig.allow_origins = ["http://localhost:3000"] ∧
    corsConfig.allow_credentials = true ∧
    corsConfig.allow_methods = ["*"] ∧
    corsConfig.allow_headers = ["*"] ∧
    (∀ M : String, allowMethodsOf corsConfig (some M) = ALL_METHODS.contains M) ∧
    allowAllHeaders corsConfig = true ∧
    (∀ req : Request, appHandle req =
      corsMiddleware corsConfig (routerHandle appRoutes) req) :=
  ⟨rfl, rfl, rfl, rfl, fun _ => rfl, rfl, fun _ => rfl⟩

/-- Claim C7: handling a request never changes the server state; folding any
sequence of requests from process start leaves the startup state intact (a
single listening state, no transitions). -/
theorem request_handling_preserves_state :
    (∀ (s : ServerState) (req : Request), (handleRequestSt s req).1 = s) ∧
    (∀ reqs : List Request,
      reqs.foldl (fun s r => (handleRequestSt s r).1) initialState = initialState) := by
  refine ⟨fun s req => rfl, fun reqs => ?_⟩
  induction reqs with
  | nil => rfl
  | cons r t ih => exact ih

/-- Counterexample to C8 as stated: `HEAD /api/hello` — a method other than
`GET` — is answered 200, not 405, because registering a `GET` route also
registers `HEAD`. -/
theorem head_hello_returns_200 :
    headHelloReq.method ≠ "GET" ∧
    (appHandle headHelloReq).status = 200 ∧
    (appHandle headHelloReq).status ≠ 405 :=
  ⟨by decide, by decide, by decide⟩

/-- Claim C8 (amended): every non-preflight request to `/api/hello` with a
method other than `GET` and `HEAD` receives the framework's
method-not-allowed response (HTTP 405), not the 200 greeting and not the
404 response. -/
theorem hello_unregistered_method_405 (req : Request)
    (hp : req.path = "/api/hello")
    (h1 : req.method ≠ "GET") (h2 : req.method ≠ "HEAD")
    (hnp : isPreflight req = false) :
    (appHandle req).status = 405 ∧
    (appHandle req).body = jsonDetail "Method Not Allowed" := by
  unfold appHandle corsMiddleware
  cases ho : headerLookup req.headers "origin" with
  | none =>
      rw [routerHandle_method_not_allowed req hp h1 h2]
      exact ⟨rfl, rfl⟩
  | some o =>
      have hcond : (req.method == "OPTIONS" &&
          (headerLookup req.headers "access-control-request-method").isSome) = false := by
        unfold isPreflight at hnp
        rw [ho, Option.isSome_some, Bool.true_and] at hnp
        exact hnp
      rw [hcond]
      simp only [Bool.false_eq_true, if_false]
      rw [routerHandle_method_not_allowed req hp h1 h2]
      exact ⟨rfl, rfl⟩

/-- Witness for amended C8: `POST /api/hello`. -/
theorem hello_unregistered_method_405_witness :
    postHelloReq.method ≠ "GET" ∧ postHelloReq.method ≠ "HEAD" ∧
    (appHandle postHelloReq).status = 405 ∧
    (appHandle postHelloReq).body = jsonDetail "Method Not Allowed" :=
  ⟨by decide, by decide,
    hello_unregistered_method_405 postHelloReq rfl (by decide) (by decide) (by decide)⟩

/-- Counterexample to C9 as stated: a preflight whose
`Access-Control-Request-Method` is not a standard method is rejected with
400 `Disallowed CORS method`, not answered successfully. -/
theorem preflight_unknown_method_rejected :
    (appHandle badMethodPreflightReq).status = 400 ∧
    (appHandle badMethodPreflightReq).body = .text "Disallowed CORS method" :=
  ⟨by decide, rfl⟩

/-- Claim C9 (amended): a CORS preflight — `OPTIONS /api/hello` with Origin
`http://localhost:3000` and `Access-Control-Request-Method` naming one of
the standard methods — is answered 200 by the middleware (no `OPTIONS`
route exists), with the origin echoed, every standard method advertised
(including the requested one), and the requested headers echoed when
present. -/
theorem preflight_standard_method_answered (req : Request) (M : String)
    (hm : req.method = "OPTIONS") (_hp : req.path = "/api/hello")
    (ho : headerLookup req.headers "origin" = some "http://localhost:3000")
    (hacrm : headerLookup req.headers "access-control-request-method" = some M)
    (hM : ALL_METHODS.contains M = true) :
    (appHandle req).status = 200 ∧
    headerLookup (appHandle req).headers "access-control-allow-origin"
      = some "http://localhost:3000" ∧
    headerLookup (appHandle req).headers "access-control-allow-methods"
      = some "DELETE, GET, HEAD, OPTIONS, PATCH, POST, PUT" ∧
    (∀ rh, headerLookup req.headers "access-control-request-headers" = some rh →
      headerLookup (appHandle req).headers "access-control-allow-headers" = some rh) := by
  unfold appHandle corsMiddleware
  rw [ho]
  dsimp only
  have hcond : (req.method == "OPTIONS" &&
      (headerLookup req.headers "access-control-request-method").isSome) = true := by
    rw [hm, hacrm]; rfl
  rw [if_pos hcond]
  refine ⟨?_, ?_, ?_, ?_⟩
  · unfold preflightResponse
    rw [preflightFailures_empty req M ho hacrm hM]
    rfl
  · rw [preflightResponse_headers]
    exact (preflight_localhost_lookups req ho).1
  · rw [preflightResponse_headers]
    unfold preflightRespHeaders
    cases hrh : headerLookup req.headers "access-control-request-headers" with
    | none =>
        dsimp only
        rw [preflightBase_localhost req ho]
        rw [headerLookup_setHeader_other _ _ _ _ (by decide)]
        decide
    | some rh =>
        dsimp only
        rw [if_pos (by decide : allowAllHeaders corsConfig = true)]
        rw [preflightBase_localhost req ho]
        rw [headerLookup_setHeader_other _ _ _ _ (by decide),
            headerLookup_setHeader_other _ _ _ _ (by decide)]
        decide
  · intro rh hrh
    rw [preflightResponse_headers]
    unfold preflightRespHeaders
    rw [hrh]
    dsimp only
    rw [if_pos (by decide : allowAllHeaders corsConfig = true)]
    exact headerLookup_setHeader_same _ _ _ _ (by decide)

/-- Witness for amended C9: a preflight for `POST` with requested headers. -/
theorem preflight_standard_method_answered_witness :
    (appHandle goodPreflightReq).status = 200 ∧
    headerLookup (appHandle goodPreflightReq).headers "access-control-allow-origin"
      = some "http://localhost:3000" ∧
    headerLookup (appHandle goodPreflightReq).headers "access-control-allow-methods"
      = some "DELETE, GET, HEAD, OPTIONS, PATCH, POST, PUT" ∧
    (∀ rh, headerLookup goodPreflightReq.headers "access-control-request-headers" = some rh →
      headerLookup (appHandle goodPreflightReq).headers "access-control-allow-headers"
        = some rh) :=
  preflight_standard_method_answered goodPreflightReq "POST"
    rfl rfl (by decide) (by decide) (by decide)

/-- Claim C10: the `/api/hello` handler is total — it evaluates no partial
operation and returns its value — so the application never produces the
framework's 500 internal-server-error response. -/
theorem read_root_total_no_500 (req : Request) :
    read_root = Except.ok helloJson ∧ (appHandle req).status ≠ 500 := by
  refine ⟨rfl, ?_⟩
  unfold appHandle corsMiddleware
  cases ho : headerLookup req.headers "origin" with
  | none => exact routerHandle_status_ne_500 req
  | some o =>
      dsimp only
      by_cases hpf : (req.method == "OPTIONS" &&
          (headerLookup req.headers "access-control-request-method").isSome) = true
      · rw [if_pos hpf]
        rcases preflightResponse_status corsConfig req with h | h <;> rw [h] <;> decide
      · rw [if_neg hpf]
        show (simpleResponse corsConfig req (routerHandle appRoutes req) o).status ≠ 500
        rw [(simpleResponse_preserves corsConfig req (routerHandle appRoutes req) o).1]
        exact routerHandle_status_ne_500 req
